import Mathlib

set_option maxRecDepth 100000

/-
  Verification of the request-handling core of webserver.c
  (guest271314/webserver-c, QuickJS web server module).

  The single entry point `module_webserver(ctx, this_val, argc, argv)` is
  embedded as a pure function over an explicit environment: each external
  effect (status-callback invocation, pending JS exception, socket write,
  socket close, popen/pclose, signal installation, command-string read,
  socket creation) is recorded as an `Event` in a trace, and the outcomes of
  the fallible system calls (accept, getsockname, read, write, popen) are
  supplied as oracle fields of the input structures.  The unbounded
  `for (;;)` loops of the C source are embedded with explicit fuel: a result
  of `none` / `spinning` / `blocked` means the loop was still running after
  the given number of iterations.
-/

namespace Webserver

/-- Fixed TCP port (`#define PORT 8080`). -/
def PORT : Nat := 8080

/-- Request buffer capacity (`#define BUFFER_SIZE 1024`). -/
def BUFFER_SIZE : Nat := 1024

/-- Streaming chunk capacity (`uint8_t writable[1764]`, webserver.c line 201). -/
def CHUNK_SIZE : Nat := 1764

/-- Whitespace as recognized by the C `%s` scanf conversion (isspace). -/
def isWS (c : Char) : Bool :=
  c = ' ' || c = '\t' || c = '\n' || c = '\r' || c = '\x0b' || c = '\x0c'

/-- Tokenizer worker: `cur` holds the characters of the token in progress,
in reverse order. -/
def wsTokensAux : List Char → List Char → List String
  | [], cur => if cur.isEmpty then [] else [String.mk cur.reverse]
  | c :: cs, cur =>
    if isWS c then
      if cur.isEmpty then wsTokensAux cs []
      else String.mk cur.reverse :: wsTokensAux cs []
    else wsTokensAux cs (c :: cur)

/-- The whitespace-separated tokens of the request buffer, in order: exactly
the successive strings the three `%s` conversions of
`sscanf(buffer, "%s %s %s", method, uri, version)` (line 155) match. -/
def wsTokens (s : String) : List String :=
  wsTokensAux s.data []

/-- Model of `sscanf(buffer, "%s %s %s", method, uri, version)` (line 155).
The three destination arrays `method`, `uri`, `version` are uninitialized
stack buffers (line 154); `m0`, `u0`, `v0` are their prior (indeterminate)
contents.  sscanf assigns only the conversions it matches, so a field whose
token is missing keeps its prior contents. -/
def scan3 (buf m0 u0 v0 : String) : String × String × String :=
  let ts := wsTokens buf
  (ts.getD 0 m0, ts.getD 1 u0, ts.getD 2 v0)

/-- The static response header block `char response[]` (lines 165-175),
written verbatim in both the OPTIONS and the GET branch. -/
def response : String :=
  "HTTP/1.1 200 OK\r\n" ++
  "Server: webserver-c\r\n" ++
  "Cross-Origin-Opener-Policy: unsafe-none\r\n" ++
  "Cross-Origin-Embedder-Policy: unsafe-none\r\n" ++
  "Access-Control-Allow-Headers: cache-control\r\n" ++
  "Access-Control-Allow-Methods: OPTIONS,GET\r\n" ++
  "Cache-Control: no-store\r\n" ++
  "Access-Control-Allow-Origin: *\r\n" ++
  "Content-type: application/octet-stream\r\n" ++
  "Access-Control-Allow-Private-Network: true\r\n\r\n"

/-- The bytes of a C string, as the byte count `strlen` + `write` see them. -/
def strBytes (s : String) : List Nat := s.data.map Char.toNat

/-- One observable effect of `module_webserver`. -/
inductive Event where
  /-- `status(ctx, argv[1], s)`: the Status Sink callback is invoked with `s`. -/
  | statusMsg (s : String)
  /-- `JS_ThrowInternalError(ctx, tag-specific format, strerror(errno))` whose
  result is discarded: a pending exception is set but control continues. -/
  | throwErr (tag : String)
  /-- `signal(SIGPIPE, SIG_IGN)` (line 74). -/
  | signalIgnore
  /-- `JS_ToCString(ctx, argv[0])`: the command string is read (line 77). -/
  | readCommand
  /-- `socket(AF_INET, SOCK_STREAM, 0)` is called (line 83). -/
  | socketCreate
  /-- a `write(request, _, _)` system call succeeded, delivering `b` to the client. -/
  | wrote (b : List Nat)
  /-- `popen(command, "r")` is called (line 204). -/
  | popenCall
  /-- `pclose(pipe)` is called (line 217). -/
  | pcloseCall
  /-- `close(request)` is called (lines 186, 223). -/
  | closeConn
deriving DecidableEq, Repr

/-- The body-streaming loop `for (;;) { count = fread(...); stream = write(...); if (stream < 0) { pclose; status("aborted"); break; } }` (lines 210-221).
`writeOk i` is the oracle for whether the `write` of iteration `i` returns
non-negative; `remaining` is the part of the subprocess's standard output not
yet consumed by `fread` (once it is empty, `fread` returns 0: end of stream);
`acc` accumulates the events so far.  Returns `none` when `fuel` iterations
did not exit the loop, `some evs` with the session's events when it did.
The C loop has no end-of-stream exit: it only breaks when a write fails. -/
def streamLoop (writeOk : Nat → Bool) : Nat → Nat → List Nat → List Event → Option (List Event)
  | 0, _, _, _ => none
  | fuel + 1, i, remaining, acc =>
    let chunk := remaining.take CHUNK_SIZE
    if writeOk i then
      streamLoop writeOk fuel (i + 1) (remaining.drop CHUNK_SIZE) (acc ++ [Event.wrote chunk])
    else
      some (acc ++ [Event.pcloseCall, Event.statusMsg "aborted"])

/-- The bytes successfully delivered to the client in a trace: the
concatenation of the successful writes, in order. -/
def sentBytes : List Event → List Nat
  | [] => []
  | Event.wrote b :: es => b ++ sentBytes es
  | _ :: es => sentBytes es

/-- The payload of a write event, if any. -/
def writtenChunk : Event → Option (List Nat)
  | Event.wrote b => some b
  | _ => none

/-- The payload of the first successful write in a trace. -/
def firstWrite (evs : List Event) : Option (List Nat) :=
  (evs.filterMap writtenChunk).head?

/-- Environment of one iteration of the accept loop: the outcomes of the
system calls for one (attempted) connection, and the data they produce. -/
structure ConnInput where
  /-- `accept` (line 122) returns non-negative. -/
  acceptOk : Bool
  /-- `getsockname` (line 132) returns non-negative. -/
  getsocknameOk : Bool
  /-- `read(request, buffer, BUFFER_SIZE)` (line 144) returns non-negative. -/
  readOk : Bool
  /-- `inet_ntoa(client_addr.sin_addr)` (line 157). -/
  peer : String
  /-- contents of `buffer` after the read, as `sscanf` sees them. -/
  buffer : String
  /-- prior (indeterminate) contents of the `method` stack buffer. -/
  m0 : String
  /-- prior (indeterminate) contents of the `uri` stack buffer. -/
  u0 : String
  /-- prior (indeterminate) contents of the `version` stack buffer. -/
  v0 : String
  /-- the header `write` (line 180 / 193) returns non-negative. -/
  headerWriteOk : Bool
  /-- `popen(command, "r")` (line 204) returns non-NULL. -/
  popenOk : Bool
  /-- the full standard-output byte stream of the subprocess. -/
  subOutput : List Nat
  /-- whether the body `write` of streaming iteration `i` (line 213) returns non-negative. -/
  bodyWriteOk : Nat → Bool

/-- The parsed method of a connection: first component of `scan3`. -/
def parsedMethod (c : ConnInput) : String :=
  (wsTokens c.buffer).getD 0 c.m0

/-- How one iteration of the accept loop ends. -/
inductive HandlerOutcome where
  /-- `continue`: the loop proceeds to the next `accept`. -/
  | cont
  /-- `break` out of the accept loop (line 226): the entry call returns `JS_UNDEFINED`. -/
  | stop
  /-- `return JS_ThrowInternalError(...)`: the entry call returns with this exception. -/
  | thrown (tag : String)
  /-- the streaming loop was still running after the available fuel. -/
  | spinning
deriving DecidableEq, Repr

/-- One iteration of the accept loop `for (;;) { ... }` (lines 120-228),
from the `accept` call through `continue`, `break`, or `return`. -/
def handleConn (fuel : Nat) (c : ConnInput) : List Event × HandlerOutcome :=
  if !c.acceptOk then ([Event.throwErr "accept"], HandlerOutcome.cont)
  else
    let evs0 := [Event.statusMsg "connection accepted"]
    if !c.getsocknameOk then (evs0 ++ [Event.throwErr "getsockname"], HandlerOutcome.cont)
    else if !c.readOk then (evs0 ++ [Event.throwErr "read"], HandlerOutcome.cont)
    else
      let f := scan3 c.buffer c.m0 c.u0 c.v0
      let evs1 := evs0 ++ [Event.statusMsg c.peer, Event.statusMsg f.1,
                           Event.statusMsg f.2.1, Event.statusMsg f.2.2]
      if f.1 = "OPTIONS" then
        if c.headerWriteOk then
          (evs1 ++ [Event.wrote (strBytes response), Event.closeConn], HandlerOutcome.cont)
        else (evs1, HandlerOutcome.thrown "write")
      else if f.1 = "GET" then
        if !c.headerWriteOk then (evs1, HandlerOutcome.thrown "write")
        else
          let evs2 := evs1 ++ [Event.wrote (strBytes response), Event.popenCall]
          if !c.popenOk then (evs2, HandlerOutcome.thrown "popen")
          else
            match streamLoop c.bodyWriteOk fuel 0 c.subOutput [] with
            | none => (evs2, HandlerOutcome.spinning)
            | some sevs => (evs2 ++ sevs ++ [Event.closeConn], HandlerOutcome.stop)
      else (evs1, HandlerOutcome.cont)

/-- How the accept loop as a whole ends. -/
inductive LoopResult where
  /-- `break`: the function falls through to `return JS_UNDEFINED`. -/
  | stopped
  /-- `return JS_ThrowInternalError(...)` from inside the loop. -/
  | threw (tag : String)
  /-- the supplied connection inputs are exhausted: the loop blocks in `accept`. -/
  | blocked
  /-- the streaming loop was still running after the available fuel. -/
  | spun
deriving DecidableEq, Repr

/-- The accept loop (lines 120-228), run over a list of pending connection
environments.  `blocked` models the real loop sitting in `accept` forever. -/
def acceptLoop (fuel : Nat) : List ConnInput → List Event × LoopResult
  | [] => ([], LoopResult.blocked)
  | c :: rest =>
    let r := handleConn fuel c
    match r.2 with
    | HandlerOutcome.cont =>
      let rr := acceptLoop fuel rest
      (r.1 ++ rr.1, rr.2)
    | HandlerOutcome.stop => (r.1, LoopResult.stopped)
    | HandlerOutcome.thrown t => (r.1, LoopResult.threw t)
    | HandlerOutcome.spinning => (r.1, LoopResult.spun)

/-- Environment of one invocation of the entry call. -/
structure EntryInput where
  /-- `JS_IsFunction(ctx, argv[1])` (line 70). -/
  arg1IsFunction : Bool
  /-- `socket(AF_INET, SOCK_STREAM, 0)` (line 83) returns non-negative. -/
  socketOk : Bool
  /-- `bind` (line 107) returns 0. -/
  bindOk : Bool
  /-- `listen` (line 114) returns 0. -/
  listenOk : Bool
  /-- the successive connection environments the accept loop will see. -/
  conns : List ConnInput

/-- The value the entry call returns to the embedding environment. -/
inductive EntryResult where
  /-- `JS_ThrowTypeError(ctx, "argument 2 must be a function")` (line 71). -/
  | typeError
  /-- `return JS_ThrowInternalError(...)`: an exception surfaces synchronously. -/
  | thrown (tag : String)
  /-- `return JS_UNDEFINED` (line 230). -/
  | undef
  /-- the loop blocks in `accept` with no more connections arriving. -/
  | blocked
  /-- the streaming loop was still running after the available fuel. -/
  | spinning
deriving DecidableEq, Repr

/-- The entry call `module_webserver(ctx, this_val, argc, argv)` (lines 65-231):
argument check, signal, command conversion, socket/bind/listen setup, then the
accept loop. -/
def module_webserver (fuel : Nat) (inp : EntryInput) : List Event × EntryResult :=
  if !inp.arg1IsFunction then ([], EntryResult.typeError)
  else
    let evs := [Event.signalIgnore, Event.readCommand, Event.socketCreate]
    if !inp.socketOk then (evs, EntryResult.thrown "socket")
    else
      let evs := evs ++ [Event.statusMsg "socket created successfully"]
      if !inp.bindOk then (evs, EntryResult.thrown "bind")
      else
        let evs := evs ++ [Event.statusMsg "socket successfully bound to address"]
        if !inp.listenOk then (evs, EntryResult.thrown "listen")
        else
          let evs := evs ++ [Event.statusMsg "server listening for connections"]
          let lr := acceptLoop fuel inp.conns
          (evs ++ lr.1,
            match lr.2 with
            | LoopResult.stopped => EntryResult.undef
            | LoopResult.threw t => EntryResult.thrown t
            | LoopResult.blocked => EntryResult.blocked
            | LoopResult.spun => EntryResult.spinning)

/-- The five status notifications every fully-read connection produces, in
source order (lines 128, 157, 159, 160, 161): "connection accepted", the peer
address, then the parsed method, URI and version. -/
def okStatusEvents (c : ConnInput) : List Event :=
  [Event.statusMsg "connection accepted", Event.statusMsg c.peer,
   Event.statusMsg (scan3 c.buffer c.m0 c.u0 c.v0).1,
   Event.statusMsg (scan3 c.buffer c.m0 c.u0 c.v0).2.1,
   Event.statusMsg (scan3 c.buffer c.m0 c.u0 c.v0).2.2]

/-! ### Concrete environments used to exercise the model -/

/-- A well-behaved GET connection: the subprocess emits three bytes, the
client accepts the first body write and then disconnects. -/
def getConnEx : ConnInput :=
  { acceptOk := true, getsocknameOk := true, readOk := true,
    peer := "127.0.0.1", buffer := "GET / HTTP/1.1\r\n\r\n",
    m0 := "", u0 := "", v0 := "",
    headerWriteOk := true, popenOk := true,
    subOutput := [1, 2, 3], bodyWriteOk := fun i => decide (i = 0) }

/-- A well-behaved OPTIONS preflight connection. -/
def optionsConnEx : ConnInput :=
  { acceptOk := true, getsocknameOk := true, readOk := true,
    peer := "127.0.0.1", buffer := "OPTIONS / HTTP/1.1\r\n\r\n",
    m0 := "", u0 := "", v0 := "",
    headerWriteOk := true, popenOk := true,
    subOutput := [], bodyWriteOk := fun _ => true }

/-- An OPTIONS connection whose header write fails (client already gone). -/
def optionsWriteFailConnEx : ConnInput :=
  { acceptOk := true, getsocknameOk := true, readOk := true,
    peer := "10.0.0.1", buffer := "OPTIONS / HTTP/1.1\r\n\r\n",
    m0 := "", u0 := "", v0 := "",
    headerWriteOk := false, popenOk := true,
    subOutput := [], bodyWriteOk := fun _ => true }

/-- A GET connection whose subprocess exits immediately with no output while
the client stays connected (every write succeeds). -/
def eofConnEx : ConnInput :=
  { acceptOk := true, getsocknameOk := true, readOk := true,
    peer := "127.0.0.1", buffer := "GET / HTTP/1.1\r\n\r\n",
    m0 := "", u0 := "", v0 := "",
    headerWriteOk := true, popenOk := true,
    subOutput := [], bodyWriteOk := fun _ => true }

/-- A GET connection for which `popen` fails. -/
def popenFailConnEx : ConnInput :=
  { acceptOk := true, getsocknameOk := true, readOk := true,
    peer := "127.0.0.1", buffer := "GET / HTTP/1.1\r\n\r\n",
    m0 := "", u0 := "", v0 := "",
    headerWriteOk := true, popenOk := false,
    subOutput := [], bodyWriteOk := fun _ => true }

/-- A connection using an unrecognized method. -/
def postConnEx : ConnInput :=
  { acceptOk := true, getsocknameOk := true, readOk := true,
    peer := "127.0.0.1", buffer := "POST / HTTP/1.1\r\n\r\n",
    m0 := "", u0 := "", v0 := "",
    headerWriteOk := true, popenOk := true,
    subOutput := [], bodyWriteOk := fun _ => true }

/-- A loop iteration whose `accept` fails. -/
def acceptFailConnEx : ConnInput :=
  { acceptOk := false, getsocknameOk := true, readOk := true,
    peer := "", buffer := "", m0 := "", u0 := "", v0 := "",
    headerWriteOk := true, popenOk := true,
    subOutput := [], bodyWriteOk := fun _ => true }

/-- A connection whose `getsockname` fails. -/
def getsocknameFailConnEx : ConnInput :=
  { acceptOk := true, getsocknameOk := false, readOk := true,
    peer := "", buffer := "", m0 := "", u0 := "", v0 := "",
    headerWriteOk := true, popenOk := true,
    subOutput := [], bodyWriteOk := fun _ => true }

/-- A connection whose socket `read` fails. -/
def readFailConnEx : ConnInput :=
  { acceptOk := true, getsocknameOk := true, readOk := false,
    peer := "", buffer := "", m0 := "", u0 := "", v0 := "",
    headerWriteOk := true, popenOk := true,
    subOutput := [], bodyWriteOk := fun _ => true }

/-- A request whose first line holds a single unrecognized token, received
into stack buffers whose prior contents are non-empty garbage. -/
def oneTokenConnEx : ConnInput :=
  { acceptOk := true, getsocknameOk := true, readOk := true,
    peer := "127.0.0.1", buffer := "FOO\r\n",
    m0 := "mGarbage", u0 := "uGarbage", v0 := "vGarbage",
    headerWriteOk := true, popenOk := true,
    subOutput := [], bodyWriteOk := fun _ => true }

/-- Entry environment: successful setup, then an `accept` failure, then an
OPTIONS connection whose header write fails. -/
def entryEx : EntryInput :=
  { arg1IsFunction := true, socketOk := true, bindOk := true, listenOk := true,
    conns := [acceptFailConnEx, optionsWriteFailConnEx] }

/-- Entry environment: successful setup, then a GET for which `popen` fails. -/
def popenFailEntryEx : EntryInput :=
  { arg1IsFunction := true, socketOk := true, bindOk := true, listenOk := true,
    conns := [popenFailConnEx] }

/-- Entry environment: successful setup, then a single OPTIONS connection
whose header write fails. -/
def optionsFailEntryEx : EntryInput :=
  { arg1IsFunction := true, socketOk := true, bindOk := true, listenOk := true,
    conns := [optionsWriteFailConnEx] }

/-- Entry environment whose `socket` call fails. -/
def socketFailEntryEx : EntryInput :=
  { arg1IsFunction := true, socketOk := false, bindOk := true, listenOk := true,
    conns := [] }

/-- Entry environment whose `bind` call fails. -/
def bindFailEntryEx : EntryInput :=
  { arg1IsFunction := true, socketOk := true, bindOk := false, listenOk := true,
    conns := [] }

/-- Entry environment whose `listen` call fails. -/
def listenFailEntryEx : EntryInput :=
  { arg1IsFunction := true, socketOk := true, bindOk := true, listenOk := false,
    conns := [] }

/-- Entry environment whose second argument is not a function. -/
def badArgEntryEx : EntryInput :=
  { arg1IsFunction := false, socketOk := true, bindOk := true, listenOk := true,
    conns := [optionsConnEx] }

end Webserver

namespace Webserver

/-! ### Helper lemmas -/

/-- `sentBytes` distributes over trace concatenation. -/
theorem sentBytes_append (a b : List Event) :
    sentBytes (a ++ b) = sentBytes a ++ sentBytes b := by
  induction a with
  | nil => rfl
  | cons e es ih =>
    cases e <;> simp [sentBytes, ih]

/-- On the empty stream the literal loop of webserver.c never exits while the
client keeps accepting writes: every iteration freads 0 bytes and writes them
successfully, so no `fuel` bound ever sees the loop end. -/
theorem streamLoop_eof_spins (fuel : Nat) : ∀ i acc,
    streamLoop (fun _ => true) fuel i [] acc = none := by
  induction fuel with
  | zero => intro i acc; rfl
  | succ n ih => intro i acc; simpa [streamLoop] using ih (i + 1) _

/-- A terminated streaming session always ends with `pclose` followed by the
"aborted" status notification: the only exit of the loop is a failed write. -/
theorem streamLoop_some_shape (w : Nat → Bool) : ∀ fuel i rem acc evs,
    streamLoop w fuel i rem acc = some evs →
    ∃ p, evs = p ++ [Event.pcloseCall, Event.statusMsg "aborted"] := by
  intro fuel
  induction fuel with
  | zero => intro i rem acc evs h; exact absurd h (by simp [streamLoop])
  | succ n ih =>
    intro i rem acc evs h
    by_cases hw : w i = true
    · exact ih (i + 1) (rem.drop CHUNK_SIZE) _ evs (by simpa [streamLoop, hw] using h)
    · refine ⟨acc, ?_⟩
      simp only [streamLoop, hw, if_neg] at h
      simp_all

/-- Invariant of the streaming loop: when it terminates, the bytes delivered
to the client extend those already delivered by an initial segment of the
remaining subprocess output (same bytes, same order), and every freshly
written chunk has at most `CHUNK_SIZE` bytes. -/
theorem streamLoop_sent_general (w : Nat → Bool) : ∀ fuel i rem acc evs,
    streamLoop w fuel i rem acc = some evs →
    (∃ k, sentBytes evs = sentBytes acc ++ rem.take k)
    ∧ ∀ b, Event.wrote b ∈ evs → Event.wrote b ∈ acc ∨ b.length ≤ CHUNK_SIZE := by
  intro fuel
  induction fuel with
  | zero => intro i rem acc evs h; exact absurd h (by simp [streamLoop])
  | succ n ih =>
    intro i rem acc evs h
    by_cases hw : w i = true
    · have h2 : streamLoop w n (i + 1) (rem.drop CHUNK_SIZE)
          (acc ++ [Event.wrote (rem.take CHUNK_SIZE)]) = some evs := by
        simpa [streamLoop, hw] using h
      obtain ⟨⟨k, hk⟩, hmem⟩ := ih (i + 1) (rem.drop CHUNK_SIZE) _ evs h2
      constructor
      · refine ⟨CHUNK_SIZE + k, ?_⟩
        rw [hk, sentBytes_append, List.take_add]
        simp [sentBytes]
      · intro b hb
        rcases hmem b hb with hin | hle
        · rcases List.mem_append.mp hin with hin2 | hin2
          · exact Or.inl hin2
          · right
            have : b = rem.take CHUNK_SIZE := by
              simpa using hin2
            rw [this]
            simp
        · exact Or.inr hle
    · have hev : evs = acc ++ [Event.pcloseCall, Event.statusMsg "aborted"] := by
        simp only [streamLoop, hw, if_neg] at h
        simp_all
      constructor
      · refine ⟨0, ?_⟩
        rw [hev, sentBytes_append]
        simp [sentBytes]
      · intro b hb
        rw [hev] at hb
        rcases List.mem_append.mp hb with hin | hin
        · exact Or.inl hin
        · simp at hin

/-! ### Branch normal forms of `handleConn` -/

/-- OPTIONS with a successful header write: respond, close, `continue`. -/
theorem handleConn_options_ok (fuel : Nat) (c : ConnInput)
    (hA : c.acceptOk = true) (hG : c.getsocknameOk = true) (hR : c.readOk = true)
    (hm : parsedMethod c = "OPTIONS") (hW : c.headerWriteOk = true) :
    handleConn fuel c =
      (okStatusEvents c ++ [Event.wrote (strBytes response), Event.closeConn],
       HandlerOutcome.cont) := by
  have hm2 : (scan3 c.buffer c.m0 c.u0 c.v0).1 = "OPTIONS" := hm
  simp [handleConn, okStatusEvents, hA, hG, hR, hW, hm2]

/-- OPTIONS with a failed header write: `return JS_ThrowInternalError`. -/
theorem handleConn_options_writeFail (fuel : Nat) (c : ConnInput)
    (hA : c.acceptOk = true) (hG : c.getsocknameOk = true) (hR : c.readOk = true)
    (hm : parsedMethod c = "OPTIONS") (hW : c.headerWriteOk = false) :
    handleConn fuel c = (okStatusEvents c, HandlerOutcome.thrown "write") := by
  have hm2 : (scan3 c.buffer c.m0 c.u0 c.v0).1 = "OPTIONS" := hm
  simp [handleConn, okStatusEvents, hA, hG, hR, hW, hm2]

/-- GET with a failed header write: `return JS_ThrowInternalError`. -/
theorem handleConn_get_writeFail (fuel : Nat) (c : ConnInput)
    (hA : c.acceptOk = true) (hG : c.getsocknameOk = true) (hR : c.readOk = true)
    (hm : parsedMethod c = "GET") (hW : c.headerWriteOk = false) :
    handleConn fuel c = (okStatusEvents c, HandlerOutcome.thrown "write") := by
  have hm2 : (scan3 c.buffer c.m0 c.u0 c.v0).1 = "GET" := hm
  simp [handleConn, okStatusEvents, hA, hG, hR, hW, hm2]

/-- GET whose `popen` fails: `return JS_ThrowInternalError`, socket not closed. -/
theorem handleConn_get_popenFail (fuel : Nat) (c : ConnInput)
    (hA : c.acceptOk = true) (hG : c.getsocknameOk = true) (hR : c.readOk = true)
    (hm : parsedMethod c = "GET") (hW : c.headerWriteOk = true)
    (hP : c.popenOk = false) :
    handleConn fuel c =
      (okStatusEvents c ++ [Event.wrote (strBytes response), Event.popenCall],
       HandlerOutcome.thrown "popen") := by
  have hm2 : (scan3 c.buffer c.m0 c.u0 c.v0).1 = "GET" := hm
  simp [handleConn, okStatusEvents, hA, hG, hR, hW, hP, hm2]

/-- GET whose streaming session terminates within `fuel` iterations. -/
theorem handleConn_get_sessionEnd (fuel : Nat) (c : ConnInput) (sevs : List Event)
    (hA : c.acceptOk = true) (hG : c.getsocknameOk = true) (hR : c.readOk = true)
    (hm : parsedMethod c = "GET") (hW : c.headerWriteOk = true)
    (hP : c.popenOk = true)
    (hs : streamLoop c.bodyWriteOk fuel 0 c.subOutput [] = some sevs) :
    handleConn fuel c =
      (okStatusEvents c ++ [Event.wrote (strBytes response), Event.popenCall]
         ++ sevs ++ [Event.closeConn],
       HandlerOutcome.stop) := by
  have hm2 : (scan3 c.buffer c.m0 c.u0 c.v0).1 = "GET" := hm
  simp [handleConn, okStatusEvents, hA, hG, hR, hW, hP, hm2, hs]

/-- GET whose streaming session is still running after `fuel` iterations. -/
theorem handleConn_get_spinning (fuel : Nat) (c : ConnInput)
    (hA : c.acceptOk = true) (hG : c.getsocknameOk = true) (hR : c.readOk = true)
    (hm : parsedMethod c = "GET") (hW : c.headerWriteOk = true)
    (hP : c.popenOk = true)
    (hs : streamLoop c.bodyWriteOk fuel 0 c.subOutput [] = none) :
    handleConn fuel c =
      (okStatusEvents c ++ [Event.wrote (strBytes response), Event.popenCall],
       HandlerOutcome.spinning) := by
  have hm2 : (scan3 c.buffer c.m0 c.u0 c.v0).1 = "GET" := hm
  simp [handleConn, okStatusEvents, hA, hG, hR, hW, hP, hm2, hs]

/-- Any other method: no response, no close, fall through to the next accept. -/
theorem handleConn_other (fuel : Nat) (c : ConnInput)
    (hA : c.acceptOk = true) (hG : c.getsocknameOk = true) (hR : c.readOk = true)
    (hm1 : parsedMethod c ≠ "OPTIONS") (hm2 : parsedMethod c ≠ "GET") :
    handleConn fuel c = (okStatusEvents c, HandlerOutcome.cont) := by
  have hn1 : ¬((scan3 c.buffer c.m0 c.u0 c.v0).1 = "OPTIONS") := hm1
  have hn2 : ¬((scan3 c.buffer c.m0 c.u0 c.v0).1 = "GET") := hm2
  simp [handleConn, okStatusEvents, hA, hG, hR, hn1, hn2]

/-- A failed `accept`: pending internal error, `continue`. -/
theorem handleConn_acceptFail (fuel : Nat) (c : ConnInput)
    (hA : c.acceptOk = false) :
    handleConn fuel c = ([Event.throwErr "accept"], HandlerOutcome.cont) := by
  simp [handleConn, hA]

/-- A failed `getsockname`: pending internal error, `continue`. -/
theorem handleConn_getsocknameFail (fuel : Nat) (c : ConnInput)
    (hA : c.acceptOk = true) (hG : c.getsocknameOk = false) :
    handleConn fuel c =
      ([Event.statusMsg "connection accepted", Event.throwErr "getsockname"],
       HandlerOutcome.cont) := by
  simp [handleConn, hA, hG]

/-- A failed socket `read`: pending internal error, `continue`. -/
theorem handleConn_readFail (fuel : Nat) (c : ConnInput)
    (hA : c.acceptOk = true) (hG : c.getsocknameOk = true) (hR : c.readOk = false) :
    handleConn fuel c =
      ([Event.statusMsg "connection accepted", Event.throwErr "read"],
       HandlerOutcome.cont) := by
  simp [handleConn, hA, hG, hR]

/-- Every fully-read connection's trace starts with the five status
notifications, whatever the method and however the body streaming goes. -/
theorem handleConn_events_shape (fuel : Nat) (c : ConnInput)
    (hA : c.acceptOk = true) (hG : c.getsocknameOk = true) (hR : c.readOk = true) :
    ∃ rest, (handleConn fuel c).1 = okStatusEvents c ++ rest := by
  by_cases h1 : parsedMethod c = "OPTIONS"
  · by_cases hW : c.headerWriteOk = true
    · refine ⟨[Event.wrote (strBytes response), Event.closeConn], ?_⟩
      rw [handleConn_options_ok fuel c hA hG hR h1 hW]
    · refine ⟨[], ?_⟩
      rw [handleConn_options_writeFail fuel c hA hG hR h1 (by simpa using hW)]
      simp
  · by_cases h2 : parsedMethod c = "GET"
    · by_cases hW : c.headerWriteOk = true
      · by_cases hP : c.popenOk = true
        · cases hs : streamLoop c.bodyWriteOk fuel 0 c.subOutput [] with
          | none =>
            refine ⟨[Event.wrote (strBytes response), Event.popenCall], ?_⟩
            rw [handleConn_get_spinning fuel c hA hG hR h2 hW hP hs]
          | some sevs =>
            refine ⟨[Event.wrote (strBytes response), Event.popenCall] ++ sevs
              ++ [Event.closeConn], ?_⟩
            rw [handleConn_get_sessionEnd fuel c sevs hA hG hR h2 hW hP hs]
            simp
        · refine ⟨[Event.wrote (strBytes response), Event.popenCall], ?_⟩
          rw [handleConn_get_popenFail fuel c hA hG hR h2 hW (by simpa using hP)]
      · refine ⟨[], ?_⟩
        rw [handleConn_get_writeFail fuel c hA hG hR h2 (by simpa using hW)]
        simp
    · refine ⟨[], ?_⟩
      rw [handleConn_other fuel c hA hG hR h1 h2]
      simp

/-! ### Claims -/

/-- C1: the claim states that once the subprocess output reaches
end-of-stream the streaming loop terminates finitely, and that a command
exiting immediately with no output leads to a clean close after zero body
bytes.  The literal loop of webserver.c (lines 210-221) has no
end-of-stream exit: with the output exhausted and a healthy client, `fread`
returns 0 and the zero-byte `write` succeeds, so no iteration bound ever
sees the loop end — first conjunct — and the handler for such a GET is
still spinning, never reaching `close`, at every fuel — second conjunct.
The code therefore busy-loops on a dead pipe exactly as §9 of the spec
warns; the claim describes the required hardened behavior, not the code. -/
theorem c1_eof_spins_forever :
    (∀ fuel i acc, streamLoop (fun _ => true) fuel i [] acc = none)
    ∧ ∀ fuel, (handleConn fuel eofConnEx).2 = HandlerOutcome.spinning := by
  refine ⟨fun fuel => streamLoop_eof_spins fuel, fun fuel => ?_⟩
  have hs : streamLoop eofConnEx.bodyWriteOk fuel 0 eofConnEx.subOutput [] = none :=
    streamLoop_eof_spins fuel 0 []
  rw [handleConn_get_spinning fuel eofConnEx rfl rfl rfl (by decide) rfl rfl hs]

/-- C2: the claim states that a `popen` failure is fatal for that connection
only and that the socket is closed cleanly.  In webserver.c (lines 205-208)
the handler instead does `return JS_ThrowInternalError(...)`: the exception
surfaces synchronously from the whole entry call — ending the accept loop,
so the failure is fatal for the entire server invocation — and `close` is
never reached, leaving the connection socket open with the header block
already sent.  Evaluated here on a concrete GET whose `popen` fails. -/
theorem c2_popen_failure_aborts_entry_without_close :
    (handleConn 3 popenFailConnEx).2 = HandlerOutcome.thrown "popen"
    ∧ Event.closeConn ∉ (handleConn 3 popenFailConnEx).1
    ∧ Event.wrote (strBytes response) ∈ (handleConn 3 popenFailConnEx).1
    ∧ (module_webserver 3 popenFailEntryEx).2 = EntryResult.thrown "popen" := by
  refine ⟨by decide, by decide, by decide, by decide⟩

/-- C3: for every accepted connection parsed as OPTIONS or as GET whose
header write succeeds, the first successful write of the connection trace is
the constant header block `response` — the same byte string for both
methods and for every such connection in the process lifetime, emitted
before any body bytes. -/
theorem c3_header_identical_and_first (fuel : Nat) (c : ConnInput)
    (hA : c.acceptOk = true) (hG : c.getsocknameOk = true) (hR : c.readOk = true)
    (hW : c.headerWriteOk = true)
    (hm : parsedMethod c = "OPTIONS" ∨ parsedMethod c = "GET") :
    firstWrite (handleConn fuel c).1 = some (strBytes response) := by
  rcases hm with h | h
  · rw [handleConn_options_ok fuel c hA hG hR h hW]
    simp [firstWrite, okStatusEvents, writtenChunk]
  · by_cases hP : c.popenOk = true
    · cases hs : streamLoop c.bodyWriteOk fuel 0 c.subOutput [] with
      | none =>
        rw [handleConn_get_spinning fuel c hA hG hR h hW hP hs]
        simp [firstWrite, okStatusEvents, writtenChunk]
      | some sevs =>
        rw [handleConn_get_sessionEnd fuel c sevs hA hG hR h hW hP hs]
        simp [firstWrite, okStatusEvents, writtenChunk]
    · rw [handleConn_get_popenFail fuel c hA hG hR h hW (by simpa using hP)]
      simp [firstWrite, okStatusEvents, writtenChunk]

/-- Witness for C3 at a concrete OPTIONS connection. -/
theorem c3_witness :
    optionsConnEx.acceptOk = true ∧ optionsConnEx.getsocknameOk = true
    ∧ optionsConnEx.readOk = true ∧ optionsConnEx.headerWriteOk = true
    ∧ (parsedMethod optionsConnEx = "OPTIONS" ∨ parsedMethod optionsConnEx = "GET")
    ∧ firstWrite (handleConn 1 optionsConnEx).1 = some (strBytes response) :=
  ⟨rfl, rfl, rfl, rfl, Or.inl (by decide),
   c3_header_identical_and_first 1 optionsConnEx rfl rfl rfl rfl (Or.inl (by decide))⟩

/-- C4: when a GET streaming session terminates, the bytes it delivered to
the client are an initial segment of the subprocess's output — same bytes,
same order — and every chunk written was at most `CHUNK_SIZE` (1764) bytes,
each `write` being passed exactly the bytes the `fread` of that iteration
returned. -/
theorem c4_stream_forwards_in_order (w : Nat → Bool) (fuel i : Nat)
    (out : List Nat) (evs : List Event)
    (h : streamLoop w fuel i out [] = some evs) :
    (∃ k, sentBytes evs = out.take k)
    ∧ ∀ b, Event.wrote b ∈ evs → b.length ≤ CHUNK_SIZE := by
  obtain ⟨⟨k, hk⟩, hmem⟩ := streamLoop_sent_general w fuel i out [] evs h
  refine ⟨⟨k, by simpa [sentBytes] using hk⟩, fun b hb => ?_⟩
  rcases hmem b hb with hin | hle
  · simp at hin
  · exact hle

/-- Witness for C4 at a concrete three-byte stream whose client disconnects
after the first chunk. -/
theorem c4_witness :
    streamLoop (fun i => decide (i = 0)) 2 0 [5, 6, 7] [] =
      some [Event.wrote [5, 6, 7], Event.pcloseCall, Event.statusMsg "aborted"]
    ∧ ((∃ k, sentBytes [Event.wrote [5, 6, 7], Event.pcloseCall,
          Event.statusMsg "aborted"] = [5, 6, 7].take k)
       ∧ ∀ b, Event.wrote b ∈ [Event.wrote [5, 6, 7], Event.pcloseCall,
          Event.statusMsg "aborted"] → b.length ≤ CHUNK_SIZE) :=
  ⟨by decide, c4_stream_forwards_in_order (fun i => decide (i = 0)) 2 0 [5, 6, 7]
    [Event.wrote [5, 6, 7], Event.pcloseCall, Event.statusMsg "aborted"] (by decide)⟩

/-- C5 counterexample: an OPTIONS connection whose header write fails makes
the handler `return JS_ThrowInternalError` (line 183), terminating the
accept loop — so it is false that an OPTIONS connection never causes the
Listener Loop to stop accepting. -/
theorem c5_counterexample :
    parsedMethod optionsWriteFailConnEx = "OPTIONS"
    ∧ (acceptLoop 1 [optionsWriteFailConnEx]).2 = LoopResult.threw "write"
    ∧ (module_webserver 1 optionsFailEntryEx).2 = EntryResult.thrown "write" := by
  refine ⟨by decide, by decide, by decide⟩

/-- C5 as amended: an OPTIONS connection whose header write succeeds never
stops the accept loop (on a failed header write the entry call throws and
the loop does stop), while a GET connection whose streaming session ends
always stops it. -/
theorem c5_amended_options_continue_get_stops :
    (∀ fuel c, c.acceptOk = true → c.getsocknameOk = true → c.readOk = true →
        parsedMethod c = "OPTIONS" → c.headerWriteOk = true →
        (handleConn fuel c).2 = HandlerOutcome.cont)
    ∧ (∀ fuel c sevs, c.acceptOk = true → c.getsocknameOk = true → c.readOk = true →
        parsedMethod c = "GET" → c.headerWriteOk = true → c.popenOk = true →
        streamLoop c.bodyWriteOk fuel 0 c.subOutput [] = some sevs →
        (handleConn fuel c).2 = HandlerOutcome.stop) := by
  constructor
  · intro fuel c hA hG hR hm hW
    rw [handleConn_options_ok fuel c hA hG hR hm hW]
  · intro fuel c sevs hA hG hR hm hW hP hs
    rw [handleConn_get_sessionEnd fuel c sevs hA hG hR hm hW hP hs]

/-- Witness for the amended C5 at a concrete OPTIONS and a concrete GET. -/
theorem c5_amended_witness :
    (handleConn 1 optionsConnEx).2 = HandlerOutcome.cont
    ∧ (handleConn 2 getConnEx).2 = HandlerOutcome.stop :=
  ⟨c5_amended_options_continue_get_stops.1 1 optionsConnEx rfl rfl rfl (by decide) rfl,
   c5_amended_options_continue_get_stops.2 2 getConnEx
     [Event.wrote [1, 2, 3], Event.pcloseCall, Event.statusMsg "aborted"]
     rfl rfl rfl (by decide) rfl rfl (by decide)⟩

/-- C6: whenever a GET streaming session terminates, the handler's trace
ends with `pclose`, then the "aborted" Status Sink notice (the only exit of
the loop is a failed write), then `close` of the connection socket — so the
subprocess is always released before the socket is closed — and the handler
stops the accept loop, ending the server's serving lifetime. -/
theorem c6_pclose_then_abort_then_close (fuel : Nat) (c : ConnInput)
    (sevs : List Event)
    (hA : c.acceptOk = true) (hG : c.getsocknameOk = true) (hR : c.readOk = true)
    (hm : parsedMethod c = "GET") (hW : c.headerWriteOk = true)
    (hP : c.popenOk = true)
    (hs : streamLoop c.bodyWriteOk fuel 0 c.subOutput [] = some sevs) :
    (∃ p, (handleConn fuel c).1 =
        p ++ [Event.pcloseCall, Event.statusMsg "aborted", Event.closeConn])
    ∧ (handleConn fuel c).2 = HandlerOutcome.stop := by
  obtain ⟨p, hp⟩ := streamLoop_some_shape c.bodyWriteOk fuel 0 c.subOutput [] sevs hs
  rw [handleConn_get_sessionEnd fuel c sevs hA hG hR hm hW hP hs]
  subst hp
  refine ⟨⟨okStatusEvents c ++ [Event.wrote (strBytes response), Event.popenCall] ++ p, ?_⟩, rfl⟩
  simp

/-- Witness for C6 at a concrete GET whose client disconnects after the
first body chunk. -/
theorem c6_witness :
    streamLoop getConnEx.bodyWriteOk 2 0 getConnEx.subOutput [] =
      some [Event.wrote [1, 2, 3], Event.pcloseCall, Event.statusMsg "aborted"]
    ∧ ((∃ p, (handleConn 2 getConnEx).1 =
          p ++ [Event.pcloseCall, Event.statusMsg "aborted", Event.closeConn])
       ∧ (handleConn 2 getConnEx).2 = HandlerOutcome.stop) :=
  ⟨by decide, c6_pclose_then_abort_then_close 2 getConnEx
    [Event.wrote [1, 2, 3], Event.pcloseCall, Event.statusMsg "aborted"]
    rfl rfl rfl (by decide) rfl rfl (by decide)⟩

/-- C7 counterexample: `sscanf` leaves unmatched `%s` destinations
untouched, so with a one-token request line the URI and version fields keep
the prior (indeterminate) contents of their uninitialized stack buffers —
here the non-empty strings "uGarbage" and "vGarbage" — and those, not empty
strings, are what the Status Sink notifications surface. -/
theorem c7_counterexample :
    scan3 "FOO\r\n" "mGarbage" "uGarbage" "vGarbage" = ("FOO", "uGarbage", "vGarbage")
    ∧ ("uGarbage" : String) ≠ ""
    ∧ Event.statusMsg "uGarbage" ∈ (handleConn 1 oneTokenConnEx).1
    ∧ Event.statusMsg "" ∉ (handleConn 1 oneTokenConnEx).1 := by
  refine ⟨by decide, by decide, by decide, by decide⟩

/-- C7 as amended: the request line is split into at most three whitespace
tokens; a request with fewer than three tokens does not fail — the three
fields are still surfaced to the Status Sink — but each missing field keeps
the prior (indeterminate) contents of its stack buffer rather than becoming
the empty string. -/
theorem c7_amended_missing_fields_keep_buffers (fuel : Nat) (c : ConnInput)
    (hA : c.acceptOk = true) (hG : c.getsocknameOk = true) (hR : c.readOk = true) :
    (Event.statusMsg (scan3 c.buffer c.m0 c.u0 c.v0).1 ∈ (handleConn fuel c).1
     ∧ Event.statusMsg (scan3 c.buffer c.m0 c.u0 c.v0).2.1 ∈ (handleConn fuel c).1
     ∧ Event.statusMsg (scan3 c.buffer c.m0 c.u0 c.v0).2.2 ∈ (handleConn fuel c).1)
    ∧ (wsTokens c.buffer = [] → scan3 c.buffer c.m0 c.u0 c.v0 = (c.m0, c.u0, c.v0))
    ∧ ((wsTokens c.buffer).length = 1 →
        (scan3 c.buffer c.m0 c.u0 c.v0).2.1 = c.u0
        ∧ (scan3 c.buffer c.m0 c.u0 c.v0).2.2 = c.v0)
    ∧ ((wsTokens c.buffer).length = 2 →
        (scan3 c.buffer c.m0 c.u0 c.v0).2.2 = c.v0) := by
  obtain ⟨rest, hshape⟩ := handleConn_events_shape fuel c hA hG hR
  refine ⟨?_, ?_, ?_, ?_⟩
  · rw [hshape]
    simp [okStatusEvents]
  · intro h
    simp [scan3, h]
  · intro h
    match hts : wsTokens c.buffer with
    | [] => rw [hts] at h; simp at h
    | [t] => simp [scan3, hts]
    | t :: s :: r => rw [hts] at h; simp at h
  · intro h
    match hts : wsTokens c.buffer with
    | [] => rw [hts] at h; simp at h
    | [t] => rw [hts] at h; simp at h
    | [t, s] => simp [scan3, hts]
    | t :: s :: r :: q => rw [hts] at h; simp at h

/-- Witness for the amended C7 at the concrete one-token request. -/
theorem c7_amended_witness :
    ((Event.statusMsg (scan3 oneTokenConnEx.buffer oneTokenConnEx.m0
        oneTokenConnEx.u0 oneTokenConnEx.v0).1 ∈ (handleConn 1 oneTokenConnEx).1
      ∧ Event.statusMsg (scan3 oneTokenConnEx.buffer oneTokenConnEx.m0
        oneTokenConnEx.u0 oneTokenConnEx.v0).2.1 ∈ (handleConn 1 oneTokenConnEx).1
      ∧ Event.statusMsg (scan3 oneTokenConnEx.buffer oneTokenConnEx.m0
        oneTokenConnEx.u0 oneTokenConnEx.v0).2.2 ∈ (handleConn 1 oneTokenConnEx).1)
     ∧ (wsTokens oneTokenConnEx.buffer = [] →
        scan3 oneTokenConnEx.buffer oneTokenConnEx.m0 oneTokenConnEx.u0
          oneTokenConnEx.v0 = (oneTokenConnEx.m0, oneTokenConnEx.u0, oneTokenConnEx.v0))
     ∧ ((wsTokens oneTokenConnEx.buffer).length = 1 →
        (scan3 oneTokenConnEx.buffer oneTokenConnEx.m0 oneTokenConnEx.u0
          oneTokenConnEx.v0).2.1 = oneTokenConnEx.u0
        ∧ (scan3 oneTokenConnEx.buffer oneTokenConnEx.m0 oneTokenConnEx.u0
          oneTokenConnEx.v0).2.2 = oneTokenConnEx.v0)
     ∧ ((wsTokens oneTokenConnEx.buffer).length = 2 →
        (scan3 oneTokenConnEx.buffer oneTokenConnEx.m0 oneTokenConnEx.u0
          oneTokenConnEx.v0).2.2 = oneTokenConnEx.v0)) :=
  c7_amended_missing_fields_keep_buffers 1 oneTokenConnEx rfl rfl rfl

/-- C8 counterexample: with a failed `accept` followed by an OPTIONS
connection whose header write fails, the full trace shows (i) the accept
failure is reported by setting a pending internal error (`throwErr`), not
through any Status Sink notification, and (ii) a non-setup error — the
header `write` failure — surfaces synchronously from the entry call,
aborting the whole process's accept loop.  Both contradict the claim. -/
theorem c8_counterexample :
    module_webserver 1 entryEx =
      ([Event.signalIgnore, Event.readCommand, Event.socketCreate,
        Event.statusMsg "socket created successfully",
        Event.statusMsg "socket successfully bound to address",
        Event.statusMsg "server listening for connections",
        Event.throwErr "accept",
        Event.statusMsg "connection accepted", Event.statusMsg "10.0.0.1",
        Event.statusMsg "OPTIONS", Event.statusMsg "/",
        Event.statusMsg "HTTP/1.1"],
       EntryResult.thrown "write") := by
  decide

/-- C8 as amended: socket, bind and listen failures surface synchronously to
the caller; header-write and subprocess-launch failures also surface
synchronously (they are the only other synchronous aborts, and they end the
accept loop); accept, getsockname and read failures are reported by setting
a pending internal error — not via the Status Sink callback — after which
the accept loop continues. -/
theorem c8_amended_error_surfacing :
    (∀ fuel inp, inp.arg1IsFunction = true → inp.socketOk = false →
        (module_webserver fuel inp).2 = EntryResult.thrown "socket")
    ∧ (∀ fuel inp, inp.arg1IsFunction = true → inp.socketOk = true →
        inp.bindOk = false →
        (module_webserver fuel inp).2 = EntryResult.thrown "bind")
    ∧ (∀ fuel inp, inp.arg1IsFunction = true → inp.socketOk = true →
        inp.bindOk = true → inp.listenOk = false →
        (module_webserver fuel inp).2 = EntryResult.thrown "listen")
    ∧ (∀ fuel c, c.acceptOk = false →
        handleConn fuel c = ([Event.throwErr "accept"], HandlerOutcome.cont))
    ∧ (∀ fuel c, c.acceptOk = true → c.getsocknameOk = false →
        handleConn fuel c = ([Event.statusMsg "connection accepted",
          Event.throwErr "getsockname"], HandlerOutcome.cont))
    ∧ (∀ fuel c, c.acceptOk = true → c.getsocknameOk = true → c.readOk = false →
        handleConn fuel c = ([Event.statusMsg "connection accepted",
          Event.throwErr "read"], HandlerOutcome.cont))
    ∧ (∀ fuel c t, (handleConn fuel c).2 = HandlerOutcome.thrown t →
        t = "write" ∨ t = "popen") := by
  refine ⟨?_, ?_, ?_, ?_, ?_, ?_, ?_⟩
  · intro fuel inp h1 h2
    simp [module_webserver, h1, h2]
  · intro fuel inp h1 h2 h3
    simp [module_webserver, h1, h2, h3]
  · intro fuel inp h1 h2 h3 h4
    simp [module_webserver, h1, h2, h3, h4]
  · intro fuel c hA
    exact handleConn_acceptFail fuel c hA
  · intro fuel c hA hG
    exact handleConn_getsocknameFail fuel c hA hG
  · intro fuel c hA hG hR
    exact handleConn_readFail fuel c hA hG hR
  · intro fuel c t h
    by_cases hA : c.acceptOk = true
    · by_cases hG : c.getsocknameOk = true
      · by_cases hR : c.readOk = true
        · by_cases h1 : parsedMethod c = "OPTIONS"
          · by_cases hW : c.headerWriteOk = true
            · rw [handleConn_options_ok fuel c hA hG hR h1 hW] at h
              simp at h
            · rw [handleConn_options_writeFail fuel c hA hG hR h1
                (by simpa using hW)] at h
              simp at h
              exact Or.inl h.symm
          · by_cases h2 : parsedMethod c = "GET"
            · by_cases hW : c.headerWriteOk = true
              · by_cases hP : c.popenOk = true
                · cases hs : streamLoop c.bodyWriteOk fuel 0 c.subOutput [] with
                  | none =>
                    rw [handleConn_get_spinning fuel c hA hG hR h2 hW hP hs] at h
                    simp at h
                  | some sevs =>
                    rw [handleConn_get_sessionEnd fuel c sevs hA hG hR h2 hW hP hs] at h
                    simp at h
                · rw [handleConn_get_popenFail fuel c hA hG hR h2 hW
                    (by simpa using hP)] at h
                  simp at h
                  exact Or.inr h.symm
              · rw [handleConn_get_writeFail fuel c hA hG hR h2
                  (by simpa using hW)] at h
                simp at h
                exact Or.inl h.symm
            · rw [handleConn_other fuel c hA hG hR h1 h2] at h
              simp at h
        · rw [handleConn_readFail fuel c hA hG (by simpa using hR)] at h
          simp at h
      · rw [handleConn_getsocknameFail fuel c hA (by simpa using hG)] at h
        simp at h
    · rw [handleConn_acceptFail fuel c (by simpa using hA)] at h
      simp at h

/-- Witness for the amended C8, one concrete instance per conjunct. -/
theorem c8_amended_witness :
    (module_webserver 1 socketFailEntryEx).2 = EntryResult.thrown "socket"
    ∧ (module_webserver 1 bindFailEntryEx).2 = EntryResult.thrown "bind"
    ∧ (module_webserver 1 listenFailEntryEx).2 = EntryResult.thrown "listen"
    ∧ handleConn 1 acceptFailConnEx = ([Event.throwErr "accept"], HandlerOutcome.cont)
    ∧ handleConn 1 getsocknameFailConnEx = ([Event.statusMsg "connection accepted",
        Event.throwErr "getsockname"], HandlerOutcome.cont)
    ∧ handleConn 1 readFailConnEx = ([Event.statusMsg "connection accepted",
        Event.throwErr "read"], HandlerOutcome.cont)
    ∧ (("write" : String) = "write" ∨ ("write" : String) = "popen") :=
  ⟨c8_amended_error_surfacing.1 1 socketFailEntryEx rfl rfl,
   c8_amended_error_surfacing.2.1 1 bindFailEntryEx rfl rfl rfl,
   c8_amended_error_surfacing.2.2.1 1 listenFailEntryEx rfl rfl rfl rfl,
   c8_amended_error_surfacing.2.2.2.1 1 acceptFailConnEx rfl,
   c8_amended_error_surfacing.2.2.2.2.1 1 getsocknameFailConnEx rfl rfl,
   c8_amended_error_surfacing.2.2.2.2.2.1 1 readFailConnEx rfl rfl rfl,
   c8_amended_error_surfacing.2.2.2.2.2.2 1 optionsWriteFailConnEx "write" (by decide)⟩

/-- C9: a connection parsed with a method that is neither "OPTIONS" nor
"GET" falls through both branches: no response bytes are written, the
connection socket is never closed, and the accept loop proceeds to the next
connection, its overall result unchanged. -/
theorem c9_unrecognized_method_falls_through (fuel : Nat) (c : ConnInput)
    (rest : List ConnInput)
    (hA : c.acceptOk = true) (hG : c.getsocknameOk = true) (hR : c.readOk = true)
    (h1 : parsedMethod c ≠ "OPTIONS") (h2 : parsedMethod c ≠ "GET") :
    (handleConn fuel c).2 = HandlerOutcome.cont
    ∧ firstWrite (handleConn fuel c).1 = none
    ∧ Event.closeConn ∉ (handleConn fuel c).1
    ∧ acceptLoop fuel (c :: rest) =
        ((handleConn fuel c).1 ++ (acceptLoop fuel rest).1,
         (acceptLoop fuel rest).2) := by
  have hc := handleConn_other fuel c hA hG hR h1 h2
  refine ⟨by rw [hc], ?_, ?_, ?_⟩
  · rw [hc]
    simp [firstWrite, okStatusEvents, writtenChunk]
  · rw [hc]
    simp [okStatusEvents]
  · simp [acceptLoop, hc]

/-- Witness for C9 at a concrete POST connection. -/
theorem c9_witness :
    parsedMethod postConnEx ≠ "OPTIONS" ∧ parsedMethod postConnEx ≠ "GET"
    ∧ ((handleConn 1 postConnEx).2 = HandlerOutcome.cont
       ∧ firstWrite (handleConn 1 postConnEx).1 = none
       ∧ Event.closeConn ∉ (handleConn 1 postConnEx).1
       ∧ acceptLoop 1 (postConnEx :: []) =
           ((handleConn 1 postConnEx).1 ++ (acceptLoop 1 []).1,
            (acceptLoop 1 []).2)) :=
  ⟨by decide, by decide,
   c9_unrecognized_method_falls_through 1 postConnEx [] rfl rfl rfl
     (by decide) (by decide)⟩

/-- C10: when the second argument is not a function the entry call returns
the TypeError immediately: the trace is empty — no signal handler installed,
no command string read, no socket created, and the callback never invoked. -/
theorem c10_type_error_before_any_effect (fuel : Nat) (inp : EntryInput)
    (h : inp.arg1IsFunction = false) :
    module_webserver fuel inp = ([], EntryResult.typeError) := by
  simp [module_webserver, h]

/-- Witness for C10 at a concrete entry environment. -/
theorem c10_witness :
    badArgEntryEx.arg1IsFunction = false
    ∧ module_webserver 1 badArgEntryEx = ([], EntryResult.typeError) :=
  ⟨rfl, c10_type_error_before_any_effect 1 badArgEntryEx rfl⟩

end Webserver
